import Mathlib

/-!
Shallow embedding of the playder offscreen shader renderer (src/main.rs).

The Rust program is a single straight-line `main`: it creates an OpenGL
context, compiles a fixed vertex shader and a user-supplied fragment shader,
links and activates a program, sets up an offscreen framebuffer/texture
target, resolves the `iResolution` and `iTime` uniform locations, uploads a
full-screen quad, and then runs `for frame in 0..(fps * duration)`, each
iteration pushing `iTime = frame as f32 / fps as f32` and
`iResolution = (width, height, 0.0)`, issuing one `TRIANGLE_FAN` draw of 4
vertices, reading back `width*height*3` RGB bytes and writing them to stdout.
Every GL call is wrapped in the `gl_safe!` macro which panics on a non-zero
`glGetError` (plus an explicit `LINK_STATUS` check in `main`), so any
driver-reported error aborts the run.  Note that `gl_safe!`'s dedicated
`CompileShader` arm is dead code — its matcher contains the literal tokens
`_shader:expr` with no `$`, so it never matches and its transcriber's
unbound `$shader` is never expanded — hence `gl::CompileShader` really goes
through the generic `glGetError` arm and there is no `COMPILE_STATUS`
check; a GLSL compile failure surfaces only at the link-status check.

The embedding models the run as a pure function from an abstract driver
environment `Env` (which driver calls succeed, link status and log, uniform
locations, pixel data returned by `ReadPixels`, stdout write success and,
for a failing write, how many bytes had been flushed) to a trace of events
plus an outcome.  `io::stdout().write_all(&pixels).unwrap()` is modelled
with real `write_all` semantics: a failing write may have flushed a strict
prefix of the frame's bytes to stdout before the panic (strict because
`write_all` returns `Ok` once the buffer is exhausted, and succeeds
trivially on an empty buffer).  Rust `u32` arithmetic on the
parameters is modelled over `ℕ` with the debug-profile overflow check made
explicit (the repository's own tests run the program through `cargo run`,
i.e. a debug build, where `width * height * 3` and `fps * duration`
panic on overflow past `2^32`).  `f32` uniform values are modelled as exact
rationals; byte values are `ℕ` reduced mod 256.
-/

namespace Playder

/-- Shader stages (`gl::VERTEX_SHADER` / `gl::FRAGMENT_SHADER`). -/
inductive Stage
  | vertex
  | fragment
deriving DecidableEq, Repr

/-- Draw primitive topology; the program only ever uses `gl::TRIANGLE_FAN`. -/
inductive DrawMode
  | triangleFan
deriving DecidableEq, Repr

/-- Observable events of a run, in program order: every GL call the source
makes, plus reading the shader file and writing a frame to stdout.
Payloads record the data the source passes at each call site. -/
inductive Event
  | loadGL
  | createShader (ty : Stage)
  | shaderSource (ty : Stage)
  | compileShader (ty : Stage)
  | readShaderFile
  | createProgram
  | attachShader (ty : Stage)
  | linkProgram
  | useProgram
  | getLinkStatus
  | getLinkLogLength
  | getLinkLog
  | genFramebuffer
  | bindFramebuffer
  | genTexture
  | bindTexture
  | texImage2D (w h : ℕ)
  | texParamMinFilter
  | texParamMagFilter
  | framebufferTexture2D
  | checkFramebufferStatus
  | getUniformLocation (name : String)
  | uniform3f (loc : Int) (x y z : ℚ)
  | uniform1f (loc : Int) (v : ℚ)
  | genVertexArrays
  | genBuffers
  | bindVertexArray
  | bindBuffer
  | bufferData (verts : List ℚ)
  | vertexAttribPointer
  | enableVertexAttribArray
  | viewport (w h : ℕ)
  | clearColor (r g b a : ℚ)
  | clear
  | drawArrays (mode : DrawMode) (first count : ℕ)
  | readPixels (w h : ℕ)
  | writeFrame (bytes : List ℕ)
  | writePartial (bytes : List ℕ)
deriving DecidableEq, Repr

/-- The distinct fatal-abort messages of the source, modelled structurally:
`glError` carries the `gl_safe!` step name (this also covers a driver error
reported after `gl::CompileShader`, since the macro's dedicated
compile-status arm is dead code and the call goes through the generic
`glGetError` arm), `linkFailed` carries the verbatim linker log,
`uniformNotFound` carries the uniform name, `mulOverflow` is the
debug-build u32 overflow panic, `writeFailed` the
`write_all(..).unwrap()` failure and `contextFailed`/`readFileFailed` the
two other `unwrap`/`expect` sites reached before the GL calls. -/
inductive PanicMsg
  | contextFailed
  | glError (step : String)
  | readFileFailed
  | linkFailed (log : String)
  | framebufferIncomplete
  | uniformNotFound (name : String)
  | mulOverflow
  | writeFailed
deriving DecidableEq, Repr

/-- Outcome of a run: normal termination or a fatal panic. -/
inductive Outcome
  | success
  | panic (msg : PanicMsg)
deriving DecidableEq, Repr

/-- The setup-phase `gl_safe!` call sites, in source order.  Each can
independently report a driver error (non-zero `glGetError`). -/
inductive SetupCall
  | loadGL
  | createShader (ty : Stage)
  | shaderSource (ty : Stage)
  | compileShader (ty : Stage)
  | createProgram
  | attachShader (ty : Stage)
  | linkProgram
  | useProgram1
  | getLinkStatus
  | getLinkLogLength
  | getLinkLog
  | useProgram2
  | genFramebuffers
  | bindFramebuffer
  | genTextures
  | bindTexture
  | texImage2D
  | texParamMin
  | texParamMag
  | framebufferTexture2D
  | checkFramebufferStatus
  | getUniformLocResolution
  | setResolutionUniform
  | getUniformLocTime
  | genVertexArrays
  | genBuffers
  | bindVertexArray
  | bindBuffer
  | bufferData
  | vertexAttribPointer
  | enableVertexAttribArray
  | viewport
  | clearColor
  | clear
  | bindVertexArray2
deriving DecidableEq, Repr

/-- The per-frame `gl_safe!` call sites inside the render loop. -/
inductive FrameCall
  | uniform1f
  | uniform3f
  | drawArrays
  | readPixels
deriving DecidableEq, Repr

/-- Abstract driver/OS environment a run executes against: which calls
succeed (`setupOk` covers every `gl_safe!` `glGetError` check, including
the one after `gl::CompileShader` — the macro has no working compile-status
arm), the link status and log the driver reports, the uniform locations of
the linked program, the pixel data `ReadPixels` returns, whether each
stdout frame write succeeds, and — for a failing write — how many bytes
`write_all` had flushed to stdout before erroring.  All observable
nondeterminism of the process is concentrated here; the run itself is a
pure function of `Env` and the four numeric parameters. -/
structure Env where
  ctxOk : Bool
  fsReadOk : Bool
  setupOk : SetupCall → Bool
  linkStatus : Bool
  linkLog : String
  fbComplete : Bool
  uniformLoc : String → Int
  frameOk : ℕ → FrameCall → Bool
  writeOk : ℕ → Bool
  writeFlushed : ℕ → ℕ
  pixelData : ℕ → ℕ → ℕ

/-- `2^32`, the size of the Rust `u32` type of all four numeric parameters. -/
def u32 : ℕ := 2 ^ 32

/-- The fixed full-screen-quad vertex data of `main.rs` (lines 171-176):
four `vec3` corners of the quad covering normalized device coordinates
`[-1,1]²`. -/
def vertices : List ℚ :=
  [-1, -1, 0, 1, -1, 0, 1, 1, 0, -1, 1, 0]

/-- One `gl_safe!`-guarded call: emit the event; if the driver reports an
error at this call site, abort with a `glError` panic carrying the step
name, otherwise continue with `rest`. -/
def glStep (env : Env) (c : SetupCall) (step : String) (ev : Event)
    (rest : List Event × Outcome) : List Event × Outcome :=
  if env.setupOk c then (ev :: rest.1, rest.2) else ([ev], .panic (.glError step))

/-- Prepend already-emitted events to the rest of a run. -/
def prepend (evs : List Event) (rest : List Event × Outcome) :
    List Event × Outcome :=
  (evs ++ rest.1, rest.2)

/-- `compile_shader` (main.rs lines 52-58): all three calls go through
`gl_safe!`'s generic `glGetError` arm.  In particular the macro's dedicated
`CompileShader` arm is dead code — its matcher holds the literal tokens
`_shader:expr` (no `$`), so it never matches, and had it matched, its
unbound `$shader` would not compile — hence there is no `COMPILE_STATUS`
check and no info-log panic here: `gl::CompileShader` is only followed by
the usual `glGetError` check, and a plain GLSL compile failure (which sets
no GL error) sails through to be caught, if at all, at link time. -/
def compile_shader (env : Env) (ty : Stage) : List Event × Option PanicMsg :=
  if env.setupOk (.createShader ty) then
    if env.setupOk (.shaderSource ty) then
      if env.setupOk (.compileShader ty) then
        ([.createShader ty, .shaderSource ty, .compileShader ty], none)
      else
        ([.createShader ty, .shaderSource ty, .compileShader ty],
         some (.glError "compile shader: compile the shader source code."))
    else
      ([.createShader ty, .shaderSource ty],
       some (.glError "set shader source: provide source code to shader. Ensure the source is valid GLSL."))
  else
    ([.createShader ty],
     some (.glError "create shader: initialize a new shader object. Ensure the shader type is correct."))

/-- Sequence a `compile_shader` result into the run: on compile failure the
run panics there, otherwise its events are prepended and the run continues. -/
def afterCompile (c : List Event × Option PanicMsg)
    (rest : List Event × Outcome) : List Event × Outcome :=
  match c.2 with
  | some m => (c.1, .panic m)
  | none => (c.1 ++ rest.1, rest.2)

/-- The bytes `gl::ReadPixels` deposits into the reused pixel buffer for
frame `i`: exactly `width*height*3` tightly-packed `u8` values (main.rs
lines 190 and 212). -/
def frameBytes (env : Env) (width height : ℕ) (i : ℕ) : List ℕ :=
  (List.range (width * height * 3)).map (fun k => env.pixelData i k % 256)

/-- One iteration of the render loop (main.rs lines 201-216): push `iTime =
frame / fps`, push `iResolution = (width, height, 0.0)`, draw the quad as a
4-vertex triangle fan, read back the pixels, and write the buffer to
stdout.  Returns the events of the iteration and `some msg` if it panicked.
The stdout write has `write_all` semantics: on success the whole frame is
accepted (`writeFrame`); a failure can only occur on a non-empty buffer
(`write_all` of an empty buffer returns `Ok` without calling `write`) and
leaves a strict prefix of the frame's bytes flushed to stdout
(`writePartial`) — strict because `write_all` returns `Ok` once the buffer
is exhausted, so an erroring call had written at most `len - 1` bytes. -/
def runFrame (env : Env) (width height fps : ℕ) (frame : ℕ) :
    List Event × Option PanicMsg :=
  let evT := Event.uniform1f (env.uniformLoc "iTime") ((frame : ℚ) / (fps : ℚ))
  if env.frameOk frame .uniform1f then
    let evR := Event.uniform3f (env.uniformLoc "iResolution")
      (width : ℚ) (height : ℚ) 0
    if env.frameOk frame .uniform3f then
      let evD := Event.drawArrays .triangleFan 0 4
      if env.frameOk frame .drawArrays then
        let evP := Event.readPixels width height
        if env.frameOk frame .readPixels then
          if env.writeOk frame then
            ([evT, evR, evD, evP,
              Event.writeFrame (frameBytes env width height frame)], none)
          else if frameBytes env width height frame = [] then
            ([evT, evR, evD, evP,
              Event.writeFrame (frameBytes env width height frame)], none)
          else
            ([evT, evR, evD, evP,
              Event.writePartial ((frameBytes env width height frame).take
                (min (env.writeFlushed frame)
                  ((frameBytes env width height frame).length - 1)))],
             some .writeFailed)
        else
          ([evT, evR, evD, evP], some (.glError "reading pixels"))
      else
        ([evT, evR, evD], some (.glError "drawing arrays"))
    else
      ([evT, evR],
       some (.glError "set iResolution uniform: set uniform value"))
  else
    ([evT], some (.glError "setting uniform value for iTime"))

/-- The render loop `for frame in i..(i+r)`: runs frames in increasing
index order, aborting the whole run at the first panicking iteration. -/
def runLoop (env : Env) (width height fps : ℕ) : ℕ → ℕ → List Event × Outcome
  | _, 0 => ([], Outcome.success)
  | i, r + 1 =>
    let f := runFrame env width height fps i
    match f.2 with
    | some m => (f.1, Outcome.panic m)
    | none =>
      let rest := runLoop env width height fps (i + 1) r
      (f.1 ++ rest.1, rest.2)

/-- The whole program (main.rs `main`, lines 60-217), after successful CLI
parsing of the four `u32` parameters: context creation, GL function
loading, vertex- and fragment-shader compilation, program link — note the
source calls `UseProgram` at line 119 *before* querying `LINK_STATUS` at
line 123, and again at line 134 after the check — framebuffer/texture
setup and completeness check, uniform-location resolution (panicking with
the uniform's name when a location is `-1`), quad upload, pixel-buffer
allocation (`width * height * 3` as checked u32 arithmetic), the one-time
viewport/clear, and finally the render loop over `fps * duration` frames
(again checked u32 arithmetic). -/
def main (env : Env) (width height fps duration : ℕ) :
    List Event × Outcome :=
  if env.ctxOk then
    glStep env .loadGL "loading OpenGL functions" .loadGL <|
    afterCompile (compile_shader env .vertex) <|
    (if env.fsReadOk then
      prepend [Event.readShaderFile] <|
      afterCompile (compile_shader env .fragment) <|
      glStep env .createProgram "create program" .createProgram <|
      glStep env (.attachShader .vertex)
        "attach vertex shader: link vertex shader to program"
        (.attachShader .vertex) <|
      glStep env (.attachShader .fragment)
        "attach fragment shader: link fragment shader to program"
        (.attachShader .fragment) <|
      glStep env .linkProgram "link program: link all attached shaders"
        .linkProgram <|
      glStep env .useProgram1 "use program: activate the shader program"
        .useProgram <|
      glStep env .getLinkStatus
        "check link status: verify program linking success" .getLinkStatus <|
      (if env.linkStatus then
        glStep env .useProgram2 "use shader program" .useProgram <|
        glStep env .genFramebuffers
          "generate framebuffer: create a new framebuffer object"
          .genFramebuffer <|
        glStep env .bindFramebuffer
          "bind framebuffer: set the framebuffer as active" .bindFramebuffer <|
        glStep env .genTextures "generate texture: create a new texture object"
          .genTexture <|
        glStep env .bindTexture "bind texture: set the texture as active"
          .bindTexture <|
        glStep env .texImage2D
          "create texture image: allocate storage for texture"
          (.texImage2D width height) <|
        glStep env .texParamMin
          "set texture min filter: define texture minification filter"
          .texParamMinFilter <|
        glStep env .texParamMag
          "set texture mag filter: define texture magnification filter"
          .texParamMagFilter <|
        glStep env .framebufferTexture2D
          "attach texture to framebuffer: link texture to framebuffer"
          .framebufferTexture2D <|
        glStep env .checkFramebufferStatus
          "check framebuffer status: verify framebuffer completeness"
          .checkFramebufferStatus <|
        (if env.fbComplete then
          glStep env .getUniformLocResolution
            "get iResolution location: find uniform location"
            (.getUniformLocation "iResolution") <|
          (if env.uniformLoc "iResolution" = -1 then
            ([], .panic (.uniformNotFound "iResolution"))
          else
            glStep env .setResolutionUniform
              "set iResolution uniform: set uniform value"
              (.uniform3f (env.uniformLoc "iResolution")
                (width : ℚ) (height : ℚ) 0) <|
            glStep env .getUniformLocTime
              "getting uniform location for iTime"
              (.getUniformLocation "iTime") <|
            (if env.uniformLoc "iTime" = -1 then
              ([], .panic (.uniformNotFound "iTime"))
            else
              glStep env .genVertexArrays "generating VAO" .genVertexArrays <|
              glStep env .genBuffers "generating VBO" .genBuffers <|
              glStep env .bindVertexArray "binding VAO" .bindVertexArray <|
              glStep env .bindBuffer "binding VBO" .bindBuffer <|
              glStep env .bufferData "buffering vertex data"
                (.bufferData vertices) <|
              glStep env .vertexAttribPointer "setting vertex attrib pointer"
                .vertexAttribPointer <|
              glStep env .enableVertexAttribArray
                "enabling vertex attrib array" .enableVertexAttribArray <|
              (if u32 ≤ width * height * 3 then ([], .panic .mulOverflow)
              else
                glStep env .viewport "setting viewport"
                  (.viewport width height) <|
                glStep env .clearColor "setting clear color"
                  (.clearColor 0 0 0 1) <|
                glStep env .clear "clearing framebuffer" .clear <|
                glStep env .bindVertexArray2 "binding vertex array"
                  .bindVertexArray <|
                (if u32 ≤ fps * duration then ([], .panic .mulOverflow)
                else runLoop env width height fps 0 (fps * duration)))))
        else ([], .panic .framebufferIncomplete))
      else
        glStep env .getLinkLogLength
          "get program info log length: determine length of linking log"
          .getLinkLogLength <|
        glStep env .getLinkLog "get program info log: retrieve linking log"
          .getLinkLog <|
        ([], .panic (.linkFailed env.linkLog)))
    else ([.readShaderFile], .panic .readFileFailed))
  else ([], .panic .contextFailed)

/-- The frames handed to the sink, in stream order: the payloads of the
`writeFrame` events of a trace. -/
def writtenFrames (evs : List Event) : List (List ℕ) :=
  evs.filterMap fun e =>
    match e with
    | .writeFrame b => some b
    | _ => none

/-- The byte chunks flushed to stdout by a trace, in order: the complete
frames of successful writes plus the partial prefix flushed by a failing
write. -/
def stdoutWrites (evs : List Event) : List (List ℕ) :=
  evs.filterMap fun e =>
    match e with
    | .writeFrame b => some b
    | .writePartial b => some b
    | _ => none

/-- All bytes written to stdout by a trace, in order — including the bytes
a failing `write_all` had flushed before the panic. -/
def outputBytes (evs : List Event) : List ℕ :=
  (stdoutWrites evs).flatten

/-- The values pushed to the time uniform (`Uniform1f`), in order. -/
def timePushes (evs : List Event) : List ℚ :=
  evs.filterMap fun e =>
    match e with
    | .uniform1f _ v => some v
    | _ => none

/-- Recognizes draw-call events. -/
def isDraw : Event → Bool
  | .drawArrays _ _ _ => true
  | _ => false

/-- Recognizes color-buffer clear events. -/
def isClear : Event → Bool
  | .clear => true
  | _ => false

/-- The draw-call events of a trace, in order. -/
def draws (evs : List Event) : List Event :=
  evs.filter isDraw

/-- Number of color-buffer clears in a trace. -/
def clearCount (evs : List Event) : ℕ :=
  (evs.filter isClear).length

/-- The viewport-setting events of a trace, in order. -/
def viewports (evs : List Event) : List Event :=
  evs.filter fun e =>
    match e with
    | .viewport _ _ => true
    | _ => false

/-- The clear-color-setting events of a trace, in order. -/
def clearColors (evs : List Event) : List Event :=
  evs.filter fun e =>
    match e with
    | .clearColor _ _ _ _ => true
    | _ => false

/-- Checks that every draw in the trace is preceded by a clear issued after
the previous draw, i.e. that each frame's draw gets its own fresh clear.
The flag records whether a clear is pending; a draw consumes it. -/
def eachDrawFreshlyCleared : List Event → Bool → Bool
  | [], _ => true
  | .clear :: rest, _ => eachDrawFreshlyCleared rest true
  | .drawArrays _ _ _ :: rest, cleared =>
      cleared && eachDrawFreshlyCleared rest false
  | _ :: rest, cleared => eachDrawFreshlyCleared rest cleared

/-- All setup-phase driver calls succeed: context creation, shader-file
read, and every `gl_safe!` setup call (the compile calls included). -/
def SetupCallsOk (env : Env) : Prop :=
  env.ctxOk = true ∧ env.fsReadOk = true ∧ (∀ c, env.setupOk c = true)

/-- A fully benign setup environment: all setup calls succeed, the program
links, the framebuffer is complete, and both uniforms resolve. -/
def SetupBenign (env : Env) : Prop :=
  SetupCallsOk env ∧ env.linkStatus = true ∧ env.fbComplete = true ∧
  env.uniformLoc "iResolution" ≠ -1 ∧ env.uniformLoc "iTime" ≠ -1

/-- All per-frame driver calls and stdout writes succeed. -/
def FramesOk (env : Env) : Prop :=
  (∀ i c, env.frameOk i c = true) ∧ (∀ i, env.writeOk i = true)

/-- A concrete environment in which every step succeeds, both uniforms
resolve to location 0, and every pixel reads back as 0. -/
def benignEnv : Env where
  ctxOk := true
  fsReadOk := true
  setupOk := fun _ => true
  linkStatus := true
  linkLog := ""
  fbComplete := true
  uniformLoc := fun _ => 0
  frameOk := fun _ _ => true
  writeOk := fun _ => true
  writeFlushed := fun _ => 0
  pixelData := fun _ _ => 0

/-- The event block of one successful loop iteration. -/
def frameEvsOk (env : Env) (width height fps : ℕ) (i : ℕ) : List Event :=
  [.uniform1f (env.uniformLoc "iTime") ((i : ℚ) / (fps : ℚ)),
   .uniform3f (env.uniformLoc "iResolution") (width : ℚ) (height : ℚ) 0,
   .drawArrays .triangleFan 0 4,
   .readPixels width height,
   .writeFrame (frameBytes env width height i)]

/-- The setup-phase event trace of a fully successful run. -/
def setupEvs (env : Env) (width height : ℕ) : List Event :=
  [.loadGL, .createShader .vertex, .shaderSource .vertex,
   .compileShader .vertex, .readShaderFile, .createShader .fragment,
   .shaderSource .fragment, .compileShader .fragment, .createProgram,
   .attachShader .vertex, .attachShader .fragment, .linkProgram, .useProgram,
   .getLinkStatus, .useProgram, .genFramebuffer, .bindFramebuffer,
   .genTexture, .bindTexture, .texImage2D width height, .texParamMinFilter,
   .texParamMagFilter, .framebufferTexture2D, .checkFramebufferStatus,
   .getUniformLocation "iResolution",
   .uniform3f (env.uniformLoc "iResolution") (width : ℚ) (height : ℚ) 0,
   .getUniformLocation "iTime", .genVertexArrays, .genBuffers,
   .bindVertexArray, .bindBuffer, .bufferData vertices, .vertexAttribPointer,
   .enableVertexAttribArray, .viewport width height, .clearColor 0 0 0 1,
   .clear, .bindVertexArray]

/-- Environment identical to `benignEnv` except that the driver reports a
failed link status together with a log. -/
def linkFailEnv : Env :=
  { benignEnv with linkStatus := false, linkLog := "link error log" }

/-- Environment of a fragment shader that declares neither uniform: every
uniform-location query returns `-1`. -/
def missingResEnv : Env :=
  { benignEnv with uniformLoc := fun _ => -1 }

/-- Environment of a fragment shader that declares `iResolution` but not
`iTime`. -/
def missingTimeEnv : Env :=
  { benignEnv with uniformLoc := fun n => if n = "iTime" then -1 else 0 }

/-- Environment in which the stdout write of every frame after the first
fails, having flushed one byte of the failing frame before erroring. -/
def writeFailEnv : Env :=
  { benignEnv with writeOk := fun i => i == 0, writeFlushed := fun _ => 1 }

/-- Invariant satisfied by every event a run can emit: any `uniform3f` push
carries the `iResolution` location and the constant value
`(width, height, 0.0)`; any frame handed to the sink is exactly
`width*height*3` bytes; and any partial chunk flushed by a failing write is
a strict prefix of a frame, hence strictly shorter than `width*height*3`
bytes. -/
def GoodEvent (env : Env) (width height : ℕ) (e : Event) : Prop :=
  (∀ loc x y z, e = Event.uniform3f loc x y z →
      loc = env.uniformLoc "iResolution" ∧
      x = (width : ℚ) ∧ y = (height : ℚ) ∧ z = 0) ∧
  (∀ b, e = Event.writeFrame b → b.length = width * height * 3) ∧
  (∀ b, e = Event.writePartial b → b.length < width * height * 3)

/-- Decomposition of a run's stdout output: the chunks flushed to stdout
are the complete frames handed to the sink followed by at most one partial
chunk, which is strictly shorter than a frame and can be present only when
the run panicked on the stdout write itself. -/
def OutDecomp (width height : ℕ) (t : List Event × Outcome) : Prop :=
  ∃ p, stdoutWrites t.1 = writtenFrames t.1 ++ p ∧
    (p = [] ∨ ∃ b, p = [b] ∧ b.length < width * height * 3) ∧
    (t.2 ≠ Outcome.panic PanicMsg.writeFailed → p = [])

theorem frameBytes_length (env : Env) (w h i : ℕ) :
    (frameBytes env w h i).length = w * h * 3 := by
  simp [frameBytes]

theorem runFrame_none {env : Env} {w h fps i : ℕ}
    (hnone : (runFrame env w h fps i).2 = none) :
    (runFrame env w h fps i).1 = frameEvsOk env w h fps i := by
  unfold runFrame at hnone ⊢
  split_ifs at hnone ⊢
  all_goals simp_all [frameEvsOk]

theorem runFrame_fail {env : Env} {w h fps i : ℕ} {m : PanicMsg}
    (hm : (runFrame env w h fps i).2 = some m) :
    writtenFrames (runFrame env w h fps i).1 = [] ∧
    (stdoutWrites (runFrame env w h fps i).1 = [] ∨
      (m = PanicMsg.writeFailed ∧
        ∃ b, stdoutWrites (runFrame env w h fps i).1 = [b] ∧
          b.length < w * h * 3)) := by
  unfold runFrame at hm ⊢
  split_ifs at hm ⊢ with h1 h2 h3 h4 h5 h6
  all_goals simp only [Option.some_inj] at hm
  all_goals try (exact ⟨rfl, Or.inl rfl⟩)
  -- failing-write branch: the flushed chunk is a strict prefix of a frame
  refine ⟨rfl, Or.inr ⟨hm.symm, _, rfl, ?_⟩⟩
  have hn : w * h * 3 ≠ 0 := by
    intro h0
    exact h6 (List.eq_nil_of_length_eq_zero
      ((frameBytes_length env w h i).trans h0))
  simp only [List.length_take, frameBytes_length]
  omega

theorem runLoop_success {env : Env} {w h fps : ℕ} (r : ℕ) :
    ∀ i, (runLoop env w h fps i r).2 = Outcome.success →
      (runLoop env w h fps i r).1 =
        ((List.range r).map fun j => frameEvsOk env w h fps (i + j)).flatten := by
  induction r with
  | zero => intro i _; simp [runLoop]
  | succ r ih =>
    intro i hs
    cases hf : (runFrame env w h fps i).2 with
    | some m => simp [runLoop, hf] at hs
    | none =>
      simp only [runLoop, hf] at hs ⊢
      rw [runFrame_none hf, ih (i + 1) hs, List.range_succ_eq_map]
      have harith : ∀ j : ℕ, i + 1 + j = i + (j + 1) := fun j => by omega
      simp only [List.map_cons, List.flatten_cons, List.map_map,
        Function.comp_def, Nat.add_zero, Nat.succ_eq_add_one, harith]

theorem runLoop_framesOk {env : Env} {w h fps : ℕ} (hfr : FramesOk env)
    (r : ℕ) : ∀ i, (runLoop env w h fps i r).2 = Outcome.success := by
  induction r with
  | zero => intro i; simp [runLoop]
  | succ r ih =>
    intro i
    have hnone : (runFrame env w h fps i).2 = none := by
      unfold runFrame; simp [hfr.1, hfr.2]
    simp only [runLoop, hnone]
    exact ih (i + 1)

theorem good_uniform3f_res (env : Env) (w h : ℕ) :
    GoodEvent env w h
      (Event.uniform3f (env.uniformLoc "iResolution") (w : ℚ) (h : ℚ) 0) := by
  refine ⟨?_, ?_, ?_⟩
  · intro loc x y z hh
    injection hh with h1 h2 h3 h4
    exact ⟨h1.symm, h2.symm, h3.symm, h4.symm⟩
  · intro b hb
    simp at hb
  · intro b hb
    simp at hb

theorem frameEvsOk_good {env : Env} {w h fps j : ℕ} {e : Event}
    (he : e ∈ frameEvsOk env w h fps j) : GoodEvent env w h e := by
  fin_cases he <;>
    first
    | exact good_uniform3f_res env w h
    | simp [GoodEvent, frameBytes_length]

theorem setupEvs_good {env : Env} {w h : ℕ} {e : Event}
    (he : e ∈ setupEvs env w h) : GoodEvent env w h e := by
  fin_cases he <;>
    first
    | exact good_uniform3f_res env w h
    | simp [GoodEvent]

theorem runFrame_events {env : Env} {w h fps i : ℕ} :
    ∀ e ∈ (runFrame env w h fps i).1, GoodEvent env w h e := by
  intro e he
  unfold runFrame at he
  split_ifs at he with h1 h2 h3 h4 h5 h6
  all_goals
    simp only [List.mem_cons, List.not_mem_nil, or_false] at he
  all_goals
    rcases he with rfl | rfl | rfl | rfl | rfl <;>
      first
      | exact good_uniform3f_res env w h
      | solve
        | simp [GoodEvent, frameBytes_length]
      | (refine ⟨fun _ _ _ _ hh => by simp at hh,
            fun b hb => by simp at hb, fun b hb => ?_⟩
         injection hb with hb1
         subst hb1
         have hn : w * h * 3 ≠ 0 := fun h0 =>
           h6 (List.eq_nil_of_length_eq_zero
             ((frameBytes_length env w h i).trans h0))
         simp only [List.length_take, frameBytes_length]
         omega)

theorem runLoop_events {env : Env} {w h fps : ℕ} (r : ℕ) :
    ∀ i, ∀ e ∈ (runLoop env w h fps i r).1, GoodEvent env w h e := by
  induction r with
  | zero => intro i e he; simp [runLoop] at he
  | succ r ih =>
    intro i e he
    cases hf : (runFrame env w h fps i).2 with
    | some m =>
      simp only [runLoop, hf] at he
      exact runFrame_events e he
    | none =>
      simp only [runLoop, hf] at he
      rcases List.mem_append.mp he with h1 | h2
      · exact runFrame_events e h1
      · exact ih (i + 1) e h2

theorem glStep_events {env : Env} {w h : ℕ} {c : SetupCall} {s : String}
    {ev : Event} {rest : List Event × Outcome}
    (hev : GoodEvent env w h ev)
    (hrest : ∀ e ∈ rest.1, GoodEvent env w h e) :
    ∀ e ∈ (glStep env c s ev rest).1, GoodEvent env w h e := by
  intro e he
  unfold glStep at he
  split_ifs at he <;>
    simp only [List.mem_cons, List.not_mem_nil, or_false] at he
  · rcases he with rfl | he
    · exact hev
    · exact hrest e he
  · rcases he with rfl
    exact hev

theorem prepend_events {env : Env} {w h : ℕ} {evs : List Event}
    {rest : List Event × Outcome}
    (hevs : ∀ e ∈ evs, GoodEvent env w h e)
    (hrest : ∀ e ∈ rest.1, GoodEvent env w h e) :
    ∀ e ∈ (prepend evs rest).1, GoodEvent env w h e := by
  intro e he
  rcases List.mem_append.mp he with h1 | h2
  · exact hevs e h1
  · exact hrest e h2

theorem compile_events {env : Env} {w h : ℕ} {ty : Stage} :
    ∀ e ∈ (compile_shader env ty).1, GoodEvent env w h e := by
  intro e he
  unfold compile_shader at he
  split_ifs at he <;>
    simp only [List.mem_cons, List.not_mem_nil, or_false] at he <;>
    rcases he with rfl | rfl | rfl <;> simp [GoodEvent]

theorem afterCompile_events {env : Env} {w h : ℕ}
    {c : List Event × Option PanicMsg} {rest : List Event × Outcome}
    (hc : ∀ e ∈ c.1, GoodEvent env w h e)
    (hrest : ∀ e ∈ rest.1, GoodEvent env w h e) :
    ∀ e ∈ (afterCompile c rest).1, GoodEvent env w h e := by
  intro e he
  obtain ⟨evs, o⟩ := c
  cases o with
  | some m => exact hc e he
  | none =>
    rcases List.mem_append.mp he with h1 | h2
    · exact hc e h1
    · exact hrest e h2

theorem main_events {env : Env} {w h fps dur : ℕ} :
    ∀ e ∈ (main env w h fps dur).1, GoodEvent env w h e := by
  unfold main
  split_ifs <;>
    repeat'
      first
      | exact runLoop_events (fps * dur) 0
      | exact fun e he => absurd he (List.not_mem_nil e)
      | refine glStep_events (good_uniform3f_res env w h) ?_
      | refine glStep_events (by simp [GoodEvent]) ?_
      | refine prepend_events (fun e he => by fin_cases he <;> simp [GoodEvent]) ?_
      | refine afterCompile_events compile_events ?_
      | (intro e he; fin_cases he <;> simp [GoodEvent])

theorem main_benign {env : Env} {w h fps dur : ℕ} (hb : SetupBenign env)
    (hwh : w * h * 3 < u32) (hfd : fps * dur < u32) :
    main env w h fps dur =
      (setupEvs env w h ++ (runLoop env w h fps 0 (fps * dur)).1,
       (runLoop env w h fps 0 (fps * dur)).2) := by
  obtain ⟨⟨hctx, hread, hsetup⟩, hlink, hfb, hres, htime⟩ := hb
  simp [main, glStep, prepend, afterCompile, compile_shader, setupEvs,
    hctx, hread, hsetup, hlink, hfb, hres, htime,
    Nat.not_le.mpr hwh, Nat.not_le.mpr hfd]

theorem glStep_success {env : Env} {c : SetupCall} {s : String} {ev : Event}
    {rest : List Event × Outcome}
    (hs : (glStep env c s ev rest).2 = Outcome.success) :
    rest.2 = Outcome.success := by
  unfold glStep at hs
  split_ifs at hs <;> simp_all

theorem afterCompile_success {c : List Event × Option PanicMsg}
    {rest : List Event × Outcome}
    (hs : (afterCompile c rest).2 = Outcome.success) :
    rest.2 = Outcome.success := by
  obtain ⟨evs, o⟩ := c
  cases o <;> simp_all [afterCompile]

theorem prepend_success {evs : List Event} {rest : List Event × Outcome}
    (hs : (prepend evs rest).2 = Outcome.success) :
    rest.2 = Outcome.success := hs

theorem glStep_peel {env : Env} {c : SetupCall} {s : String} {ev : Event}
    {rest : List Event × Outcome} {L : List Event}
    (hs : (glStep env c s ev rest).2 = Outcome.success)
    (k : rest.2 = Outcome.success → rest.1 = L) :
    (glStep env c s ev rest).1 = ev :: L := by
  unfold glStep at hs ⊢
  split_ifs at hs ⊢ with hc
  exact congrArg (ev :: ·) (k hs)

theorem prepend_peel {ev : Event} {rest : List Event × Outcome} {L : List Event}
    (hs : (prepend [ev] rest).2 = Outcome.success)
    (k : rest.2 = Outcome.success → rest.1 = L) :
    (prepend [ev] rest).1 = ev :: L := by
  unfold prepend at hs ⊢
  simp [k hs]

theorem afterCompile_peel {env : Env} {ty : Stage}
    {rest : List Event × Outcome} {L : List Event}
    (hs : (afterCompile (compile_shader env ty) rest).2 = Outcome.success)
    (k : rest.2 = Outcome.success → rest.1 = L) :
    (afterCompile (compile_shader env ty) rest).1 =
      Event.createShader ty :: Event.shaderSource ty ::
        Event.compileShader ty :: L := by
  unfold compile_shader afterCompile at hs ⊢
  split_ifs at hs ⊢ <;> simp_all

theorem main_success {env : Env} {w h fps dur : ℕ}
    (hs : (main env w h fps dur).2 = Outcome.success) :
    (main env w h fps dur).1 =
      setupEvs env w h ++
        ((List.range (fps * dur)).map (frameEvsOk env w h fps)).flatten := by
  unfold main at hs ⊢
  split_ifs at hs ⊢
  all_goals try solve
    | (exfalso
       repeat
         first
         | exact absurd hs (by simp)
         | replace hs := glStep_success hs
         | replace hs := afterCompile_success hs
         | replace hs := prepend_success hs)
  simp only [setupEvs, List.cons_append, List.nil_append]
  refine glStep_peel hs fun hs => ?_
  refine afterCompile_peel hs fun hs => ?_
  refine prepend_peel hs fun hs => ?_
  refine afterCompile_peel hs fun hs => ?_
  refine glStep_peel hs fun hs => ?_
  refine glStep_peel hs fun hs => ?_
  refine glStep_peel hs fun hs => ?_
  refine glStep_peel hs fun hs => ?_
  refine glStep_peel hs fun hs => ?_
  refine glStep_peel hs fun hs => ?_
  refine glStep_peel hs fun hs => ?_
  refine glStep_peel hs fun hs => ?_
  refine glStep_peel hs fun hs => ?_
  refine glStep_peel hs fun hs => ?_
  refine glStep_peel hs fun hs => ?_
  refine glStep_peel hs fun hs => ?_
  refine glStep_peel hs fun hs => ?_
  refine glStep_peel hs fun hs => ?_
  refine glStep_peel hs fun hs => ?_
  refine glStep_peel hs fun hs => ?_
  refine glStep_peel hs fun hs => ?_
  refine glStep_peel hs fun hs => ?_
  refine glStep_peel hs fun hs => ?_
  refine glStep_peel hs fun hs => ?_
  refine glStep_peel hs fun hs => ?_
  refine glStep_peel hs fun hs => ?_
  refine glStep_peel hs fun hs => ?_
  refine glStep_peel hs fun hs => ?_
  refine glStep_peel hs fun hs => ?_
  refine glStep_peel hs fun hs => ?_
  refine glStep_peel hs fun hs => ?_
  refine glStep_peel hs fun hs => ?_
  refine glStep_peel hs fun hs => ?_
  refine glStep_peel hs fun hs => ?_
  rw [runLoop_success (fps * dur) 0 hs]
  simp

theorem writtenFrames_append (l₁ l₂ : List Event) :
    writtenFrames (l₁ ++ l₂) = writtenFrames l₁ ++ writtenFrames l₂ := by
  simp [writtenFrames]

theorem writtenFrames_cons (ev : Event) (l : List Event) :
    writtenFrames (ev :: l) = writtenFrames [ev] ++ writtenFrames l :=
  writtenFrames_append [ev] l

theorem writtenFrames_setup (env : Env) (w h : ℕ) :
    writtenFrames (setupEvs env w h) = [] := rfl

theorem writtenFrames_frameEvs (env : Env) (w h fps i : ℕ) :
    writtenFrames (frameEvsOk env w h fps i) = [frameBytes env w h i] := rfl

theorem writtenFrames_blocks (env : Env) (w h fps : ℕ) (l : List ℕ) :
    writtenFrames ((l.map (frameEvsOk env w h fps)).flatten) =
      l.map (frameBytes env w h) := by
  induction l with
  | nil => rfl
  | cons a l ih =>
    simp only [List.map_cons, List.flatten_cons, writtenFrames_append,
      writtenFrames_frameEvs, ih, List.singleton_append]

theorem stdoutWrites_append (l₁ l₂ : List Event) :
    stdoutWrites (l₁ ++ l₂) = stdoutWrites l₁ ++ stdoutWrites l₂ := by
  simp [stdoutWrites]

theorem stdoutWrites_cons (ev : Event) (l : List Event) :
    stdoutWrites (ev :: l) = stdoutWrites [ev] ++ stdoutWrites l :=
  stdoutWrites_append [ev] l

theorem stdoutWrites_setup (env : Env) (w h : ℕ) :
    stdoutWrites (setupEvs env w h) = [] := rfl

theorem stdoutWrites_frameEvs (env : Env) (w h fps i : ℕ) :
    stdoutWrites (frameEvsOk env w h fps i) = [frameBytes env w h i] := rfl

theorem stdoutWrites_blocks (env : Env) (w h fps : ℕ) (l : List ℕ) :
    stdoutWrites ((l.map (frameEvsOk env w h fps)).flatten) =
      l.map (frameBytes env w h) := by
  induction l with
  | nil => rfl
  | cons a l ih =>
    simp only [List.map_cons, List.flatten_cons, stdoutWrites_append,
      stdoutWrites_frameEvs, ih, List.singleton_append]

theorem timePushes_append (l₁ l₂ : List Event) :
    timePushes (l₁ ++ l₂) = timePushes l₁ ++ timePushes l₂ := by
  simp [timePushes]

theorem timePushes_setup (env : Env) (w h : ℕ) :
    timePushes (setupEvs env w h) = [] := rfl

theorem timePushes_blocks (env : Env) (w h fps : ℕ) (l : List ℕ) :
    timePushes ((l.map (frameEvsOk env w h fps)).flatten) =
      l.map (fun i => (i : ℚ) / (fps : ℚ)) := by
  induction l with
  | nil => rfl
  | cons a l ih =>
    simp only [List.map_cons, List.flatten_cons, timePushes_append, ih]
    rfl

theorem draws_append (l₁ l₂ : List Event) :
    draws (l₁ ++ l₂) = draws l₁ ++ draws l₂ := by
  simp [draws]

theorem draws_setup (env : Env) (w h : ℕ) :
    draws (setupEvs env w h) = [] := rfl

theorem draws_blocks (env : Env) (w h fps : ℕ) (l : List ℕ) :
    draws ((l.map (frameEvsOk env w h fps)).flatten) =
      List.replicate l.length (Event.drawArrays DrawMode.triangleFan 0 4) := by
  induction l with
  | nil => rfl
  | cons a l ih =>
    simp only [List.map_cons, List.flatten_cons, draws_append, ih,
      List.length_cons, List.replicate_succ]
    rfl

theorem clearCount_append (l₁ l₂ : List Event) :
    clearCount (l₁ ++ l₂) = clearCount l₁ + clearCount l₂ := by
  simp [clearCount]

theorem clearCount_setup (env : Env) (w h : ℕ) :
    clearCount (setupEvs env w h) = 1 := rfl

theorem clearCount_blocks (env : Env) (w h fps : ℕ) (l : List ℕ) :
    clearCount ((l.map (frameEvsOk env w h fps)).flatten) = 0 := by
  induction l with
  | nil => rfl
  | cons a l ih =>
    simp only [List.map_cons, List.flatten_cons, clearCount_append, ih]
    rfl

theorem writtenFrames_mem {evs : List Event} {b : List ℕ}
    (hb : b ∈ writtenFrames evs) : Event.writeFrame b ∈ evs := by
  simp only [writtenFrames, List.mem_filterMap] at hb
  obtain ⟨e, he, hfe⟩ := hb
  cases e <;> simp_all

theorem flatten_length_const {c : ℕ} :
    ∀ l : List (List ℕ), (∀ b ∈ l, b.length = c) →
      l.flatten.length = l.length * c
  | [], _ => by simp
  | a :: l, hl => by
    have ha : a.length = c := hl a (List.mem_cons_self a l)
    have hrest := flatten_length_const l (fun b hb => hl b (List.mem_cons_of_mem a hb))
    simp [List.length_append, ha, hrest, Nat.succ_mul, Nat.add_comm]

theorem viewports_append (l₁ l₂ : List Event) :
    viewports (l₁ ++ l₂) = viewports l₁ ++ viewports l₂ := by
  simp [viewports]

theorem viewports_setup (env : Env) (w h : ℕ) :
    viewports (setupEvs env w h) = [Event.viewport w h] := rfl

theorem viewports_blocks (env : Env) (w h fps : ℕ) (l : List ℕ) :
    viewports ((l.map (frameEvsOk env w h fps)).flatten) = [] := by
  induction l with
  | nil => rfl
  | cons a l ih =>
    simp only [List.map_cons, List.flatten_cons, viewports_append, ih]
    rfl

theorem clearColors_append (l₁ l₂ : List Event) :
    clearColors (l₁ ++ l₂) = clearColors l₁ ++ clearColors l₂ := by
  simp [clearColors]

theorem clearColors_setup (env : Env) (w h : ℕ) :
    clearColors (setupEvs env w h) = [Event.clearColor 0 0 0 1] := rfl

theorem clearColors_blocks (env : Env) (w h fps : ℕ) (l : List ℕ) :
    clearColors ((l.map (frameEvsOk env w h fps)).flatten) = [] := by
  induction l with
  | nil => rfl
  | cons a l ih =>
    simp only [List.map_cons, List.flatten_cons, clearColors_append, ih]
    rfl

theorem draws_takeWhile_setup (env : Env) (w h : ℕ) (X : List Event) :
    draws ((setupEvs env w h ++ X).takeWhile fun e => !isClear e) = [] := rfl

theorem benign_setup : SetupBenign benignEnv :=
  ⟨⟨rfl, rfl, fun _ => rfl⟩, rfl, rfl, by decide, by decide⟩

theorem benign_frames : FramesOk benignEnv :=
  ⟨fun _ _ => rfl, fun _ => rfl⟩

theorem glStep_out {env : Env} {c : SetupCall} {s : String} {ev : Event}
    {rest : List Event × Outcome} {w h : ℕ}
    (h1 : stdoutWrites [ev] = []) (h2 : writtenFrames [ev] = [])
    (hrest : OutDecomp w h rest) :
    OutDecomp w h (glStep env c s ev rest) := by
  unfold glStep
  split_ifs with hc
  · obtain ⟨p, hp1, hp2, hp3⟩ := hrest
    refine ⟨p, ?_, hp2, hp3⟩
    show stdoutWrites (ev :: rest.1) = writtenFrames (ev :: rest.1) ++ p
    rw [stdoutWrites_cons, writtenFrames_cons, h1, h2, hp1]
    simp
  · exact ⟨[], by simp [h1, h2], Or.inl rfl, fun _ => rfl⟩

theorem prepend_out {ev : Event} {rest : List Event × Outcome} {w h : ℕ}
    (h1 : stdoutWrites [ev] = []) (h2 : writtenFrames [ev] = [])
    (hrest : OutDecomp w h rest) :
    OutDecomp w h (prepend [ev] rest) := by
  unfold prepend
  obtain ⟨p, hp1, hp2, hp3⟩ := hrest
  refine ⟨p, ?_, hp2, hp3⟩
  show stdoutWrites ([ev] ++ rest.1) = writtenFrames ([ev] ++ rest.1) ++ p
  rw [stdoutWrites_append, writtenFrames_append, h1, h2, hp1]
  simp

theorem afterCompile_out {env : Env} {ty : Stage} {w h : ℕ}
    {rest : List Event × Outcome} (hrest : OutDecomp w h rest) :
    OutDecomp w h (afterCompile (compile_shader env ty) rest) := by
  unfold compile_shader afterCompile
  split_ifs
  · obtain ⟨p, hp1, hp2, hp3⟩ := hrest
    refine ⟨p, ?_, hp2, hp3⟩
    show stdoutWrites
        ([Event.createShader ty, Event.shaderSource ty,
          Event.compileShader ty] ++ rest.1) = _ ++ p
    rw [stdoutWrites_append, writtenFrames_append, hp1]
    simp [stdoutWrites, writtenFrames]
  · exact ⟨[], rfl, Or.inl rfl, fun _ => rfl⟩
  · exact ⟨[], rfl, Or.inl rfl, fun _ => rfl⟩
  · exact ⟨[], rfl, Or.inl rfl, fun _ => rfl⟩

theorem runLoop_out (env : Env) (w h fps : ℕ) (r : ℕ) :
    ∀ i, OutDecomp w h (runLoop env w h fps i r) := by
  induction r with
  | zero => intro i; exact ⟨[], rfl, Or.inl rfl, fun _ => rfl⟩
  | succ r ih =>
    intro i
    cases hf : (runFrame env w h fps i).2 with
    | some m =>
      obtain ⟨hw0, hsw⟩ := runFrame_fail hf
      rcases hsw with hsw | ⟨hm, b, hb, hblt⟩
      · refine ⟨[], ?_, Or.inl rfl, fun _ => rfl⟩
        simp only [runLoop, hf]
        rw [hsw, hw0]
        rfl
      · refine ⟨[b], ?_, Or.inr ⟨b, rfl, hblt⟩, ?_⟩
        · simp only [runLoop, hf]
          rw [hb, hw0]
          rfl
        · intro hne
          exfalso
          apply hne
          simp only [runLoop, hf, hm]
    | none =>
      obtain ⟨p, hp1, hp2, hp3⟩ := ih (i + 1)
      refine ⟨p, ?_, hp2, ?_⟩
      · simp only [runLoop, hf]
        rw [stdoutWrites_append, writtenFrames_append, hp1,
          runFrame_none hf, stdoutWrites_frameEvs, writtenFrames_frameEvs]
        simp
      · intro hne
        apply hp3
        simp only [runLoop, hf] at hne
        exact hne

theorem main_out (env : Env) (w h fps dur : ℕ) :
    OutDecomp w h (main env w h fps dur) := by
  unfold main
  split_ifs <;>
    repeat'
      first
      | exact runLoop_out env w h fps (fps * dur) 0
      | exact ⟨[], rfl, Or.inl rfl, fun _ => rfl⟩
      | refine glStep_out rfl rfl ?_
      | refine prepend_out rfl rfl ?_
      | refine afterCompile_out ?_

/-- Claim C1: for every parameter tuple, a run that completes without a
fatal error hands the sink exactly `fps*duration` frames, the `i`-th being
the readback of frame index `i` (so frames appear in strictly increasing
index order with no skipping or reordering), each frame is exactly
`width*height*3` bytes, and the total output is exactly
`width*height*3*fps*duration` bytes. -/
theorem C1_output_stream (env : Env) (width height fps duration : ℕ)
    (hs : (main env width height fps duration).2 = Outcome.success) :
    writtenFrames (main env width height fps duration).1 =
      (List.range (fps * duration)).map (frameBytes env width height) ∧
    (∀ b ∈ writtenFrames (main env width height fps duration).1,
      b.length = width * height * 3) ∧
    (outputBytes (main env width height fps duration).1).length =
      width * height * 3 * (fps * duration) := by
  have ht := main_success hs
  have hwf : writtenFrames (main env width height fps duration).1 =
      (List.range (fps * duration)).map (frameBytes env width height) := by
    rw [ht, writtenFrames_append, writtenFrames_setup,
      writtenFrames_blocks, List.nil_append]
  have hlen : ∀ b ∈ writtenFrames (main env width height fps duration).1,
      b.length = width * height * 3 := by
    intro b hb
    rw [hwf] at hb
    simp only [List.mem_map] at hb
    obtain ⟨i, _, rfl⟩ := hb
    exact frameBytes_length env width height i
  have hsw : stdoutWrites (main env width height fps duration).1 =
      (List.range (fps * duration)).map (frameBytes env width height) := by
    rw [ht, stdoutWrites_append, stdoutWrites_setup, stdoutWrites_blocks,
      List.nil_append]
  have hlen2 : ∀ b ∈ stdoutWrites (main env width height fps duration).1,
      b.length = width * height * 3 := by
    intro b hb
    rw [hsw] at hb
    simp only [List.mem_map] at hb
    obtain ⟨i, _, rfl⟩ := hb
    exact frameBytes_length env width height i
  refine ⟨hwf, hlen, ?_⟩
  rw [outputBytes, flatten_length_const _ hlen2, hsw]
  simp [Nat.mul_comm]

/-- Witness for C1 at `width = height = 1`, `fps = 2`, `duration = 1`
against the all-benign environment. -/
theorem C1_output_stream_witness :
    writtenFrames (main benignEnv 1 1 2 1).1 =
      (List.range (2 * 1)).map (frameBytes benignEnv 1 1) ∧
    (∀ b ∈ writtenFrames (main benignEnv 1 1 2 1).1,
      b.length = 1 * 1 * 3) ∧
    (outputBytes (main benignEnv 1 1 2 1).1).length = 1 * 1 * 3 * (2 * 1) :=
  C1_output_stream benignEnv 1 1 2 1 (by decide)

/-- Counterexample to claim C2: `width = 0` is invalid per the claim, yet
with a driver that accepts the setup the run does not abort with any
SetupError before the frame loop — it completes successfully and even
hands a (zero-length) frame to the sink.  The source performs no
positivity validation of width, height, fps or duration. -/
theorem C2_counterexample :
    (main benignEnv 0 1 1 1).2 = Outcome.success ∧
    writtenFrames (main benignEnv 0 1 1 1).1 ≠ [] := by
  constructor
  · decide
  · decide

/-- Claim C2 as amended: the core performs no validation of the parameter
values beyond their successful parse as `u32`; for every environment whose
driver calls all succeed, the run reaches and completes the frame loop for
all parameter values — including `width = 0`, `height = 0` or `fps = 0` —
without any SetupError. -/
theorem C2_no_validation (env : Env) (width height fps duration : ℕ)
    (hb : SetupBenign env) (hfr : FramesOk env)
    (hwh : width * height * 3 < u32) (hfd : fps * duration < u32) :
    (main env width height fps duration).2 = Outcome.success := by
  rw [main_benign hb hwh hfd]
  exact runLoop_framesOk hfr (fps * duration) 0

/-- Witness for the amended C2 at the invalid tuple `width = 0, fps = 0`. -/
theorem C2_no_validation_witness :
    (main benignEnv 0 1 0 5).2 = Outcome.success :=
  C2_no_validation benignEnv 0 1 0 5 benign_setup benign_frames
    (by norm_num [u32]) (by norm_num [u32])

/-- Claim C3: if `fps = 0` or `duration = 0` (and setup succeeds), the run
terminates successfully, the sink is never invoked (no `writeFrame`
events), and the frame loop performs zero iterations (no draw events). -/
theorem C3_zero_frames (env : Env) (width height fps duration : ℕ)
    (hb : SetupBenign env) (hwh : width * height * 3 < u32)
    (hz : fps = 0 ∨ duration = 0) :
    (main env width height fps duration).2 = Outcome.success ∧
    writtenFrames (main env width height fps duration).1 = [] ∧
    draws (main env width height fps duration).1 = [] := by
  have hfd0 : fps * duration = 0 := by rcases hz with rfl | rfl <;> simp
  have hfd : fps * duration < u32 := by rw [hfd0]; norm_num [u32]
  have heq := main_benign hb hwh hfd
  rw [heq, hfd0]
  refine ⟨rfl, ?_, ?_⟩
  · simp [runLoop, writtenFrames_append, writtenFrames_setup]
  · simp [runLoop, draws_append, draws_setup]

/-- Witness for C3 at `fps = 0`, `duration = 5`. -/
theorem C3_zero_frames_witness :
    (main benignEnv 1 1 0 5).2 = Outcome.success ∧
    writtenFrames (main benignEnv 1 1 0 5).1 = [] ∧
    draws (main benignEnv 1 1 0 5).1 = [] :=
  C3_zero_frames benignEnv 1 1 0 5 benign_setup (by norm_num [u32])
    (Or.inl rfl)

/-- Claim C4: in a successful run the values pushed to the time uniform
are exactly `0/fps, 1/fps, …, (totalFrames-1)/fps`, in strictly increasing
frame order, and the full trace decomposes into per-frame blocks in which
the time push precedes that frame's draw call. -/
theorem C4_time_uniform (env : Env) (width height fps duration : ℕ)
    (hs : (main env width height fps duration).2 = Outcome.success) :
    timePushes (main env width height fps duration).1 =
      (List.range (fps * duration)).map (fun i => (i : ℚ) / (fps : ℚ)) ∧
    (main env width height fps duration).1 =
      setupEvs env width height ++
        ((List.range (fps * duration)).map
          (frameEvsOk env width height fps)).flatten := by
  have ht := main_success hs
  refine ⟨?_, ht⟩
  rw [ht, timePushes_append, timePushes_setup, timePushes_blocks,
    List.nil_append]

/-- Witness for C4 at `fps = 5`, `duration = 1`. -/
theorem C4_time_uniform_witness :
    timePushes (main benignEnv 1 1 5 1).1 =
      (List.range (5 * 1)).map (fun i => (i : ℚ) / ((5 : ℕ) : ℚ)) ∧
    (main benignEnv 1 1 5 1).1 =
      setupEvs benignEnv 1 1 ++
        ((List.range (5 * 1)).map (frameEvsOk benignEnv 1 1 5)).flatten :=
  C4_time_uniform benignEnv 1 1 5 1 (by decide)

/-- Counterexample to claim C5: in a successful 2-frame run it is not the
case that each frame's draw is preceded by its own clear of the color
buffer — the second draw happens with no clear since the previous draw,
because the source clears once before the loop (main.rs line 195), not
once per frame. -/
theorem C5_counterexample :
    eachDrawFreshlyCleared (main benignEnv 1 1 2 1).1 false = false := by
  decide

/-- Claim C5 as amended: in every successful run the viewport is set to the
full target dimensions and the color buffer is cleared (with clear color
opaque black) exactly once, before the first draw; every frame issues a
single 4-vertex triangle-fan draw; frames after the first are drawn
without re-clearing. -/
theorem C5_clear_once (env : Env) (width height fps duration : ℕ)
    (hs : (main env width height fps duration).2 = Outcome.success) :
    clearCount (main env width height fps duration).1 = 1 ∧
    draws (main env width height fps duration).1 =
      List.replicate (fps * duration)
        (Event.drawArrays DrawMode.triangleFan 0 4) ∧
    draws ((main env width height fps duration).1.takeWhile
      fun e => !isClear e) = [] ∧
    viewports (main env width height fps duration).1 =
      [Event.viewport width height] ∧
    clearColors (main env width height fps duration).1 =
      [Event.clearColor 0 0 0 1] := by
  have ht := main_success hs
  refine ⟨?_, ?_, ?_, ?_, ?_⟩
  · rw [ht, clearCount_append, clearCount_setup, clearCount_blocks]
  · rw [ht, draws_append, draws_setup, draws_blocks, List.nil_append,
      List.length_range]
  · rw [ht]
    exact draws_takeWhile_setup env width height _
  · rw [ht, viewports_append, viewports_setup, viewports_blocks,
      List.append_nil]
  · rw [ht, clearColors_append, clearColors_setup, clearColors_blocks,
      List.append_nil]

/-- Witness for the amended C5 at a 2-frame run. -/
theorem C5_clear_once_witness :
    clearCount (main benignEnv 1 1 2 1).1 = 1 ∧
    draws (main benignEnv 1 1 2 1).1 =
      List.replicate (2 * 1) (Event.drawArrays DrawMode.triangleFan 0 4) ∧
    draws ((main benignEnv 1 1 2 1).1.takeWhile fun e => !isClear e) = [] ∧
    viewports (main benignEnv 1 1 2 1).1 = [Event.viewport 1 1] ∧
    clearColors (main benignEnv 1 1 2 1).1 = [Event.clearColor 0 0 0 1] :=
  C5_clear_once benignEnv 1 1 2 1 (by decide)

/-- Counterexample to claim C6: a run in which the stdout write of the
second frame fails after `write_all` flushed one byte ends fatally with
4 bytes on stdout — one whole 3-byte frame plus a 1-byte strict prefix of
the failing frame — and 4 is not a multiple of `width*height*3 = 3`.  A
fatal run's output therefore need not be a multiple of the frame size:
`write_all` can leave a partial frame on stdout before the panic. -/
theorem C6_counterexample :
    (main writeFailEnv 1 1 2 1).2 ≠ Outcome.success ∧
    (outputBytes (main writeFailEnv 1 1 2 1).1).length = 4 ∧
    (outputBytes (main writeFailEnv 1 1 2 1).1).length % (1 * 1 * 3) ≠ 0 := by
  decide

/-- Claim C6 as amended: in every run, the bytes on stdout are the
complete `width*height*3`-byte frames handed to the sink, in order,
followed by at most one trailing chunk that is strictly shorter than a
frame; that trailing partial chunk can be non-empty only when the fatal
error is the stdout write itself (`write_all` flushing a strict prefix of
the failing frame before the `unwrap` panic).  In particular a run that
fails at any non-write step — and every successful run — has emitted
whole frames only. -/
theorem C6_whole_frames (env : Env) (width height fps duration : ℕ) :
    (∀ b ∈ writtenFrames (main env width height fps duration).1,
      b.length = width * height * 3) ∧
    ∃ t, outputBytes (main env width height fps duration).1 =
        (writtenFrames (main env width height fps duration).1).flatten ++ t ∧
      (t = [] ∨ t.length < width * height * 3) ∧
      ((main env width height fps duration).2 ≠
          Outcome.panic PanicMsg.writeFailed → t = []) := by
  constructor
  · intro b hb
    exact ((main_events _ (writtenFrames_mem hb)).2).1 b rfl
  · obtain ⟨p, hp1, hp2, hp3⟩ := main_out env width height fps duration
    refine ⟨p.flatten, ?_, ?_, ?_⟩
    · rw [outputBytes, hp1, List.flatten_append]
    · rcases hp2 with rfl | ⟨b, rfl, hblt⟩
      · exact Or.inl rfl
      · exact Or.inr (by simpa using hblt)
    · intro hne
      rw [hp3 hne]
      rfl

/-- Claim C7: when the fragment shader declares neither the time uniform
nor the resolution uniform (modelled by the linked program resolving the
location of `iResolution`, respectively `iTime`, to `-1`), the run fails
fatally with a uniform-not-found error naming the missing uniform, before
any frame is rendered (no draw events) and with zero output bytes. -/
theorem C7_missing_uniform (env : Env) (width height fps duration : ℕ)
    (hco : SetupCallsOk env) (hlink : env.linkStatus = true)
    (hfb : env.fbComplete = true)
    (hmiss : env.uniformLoc "iResolution" = -1 ∨
      env.uniformLoc "iTime" = -1) :
    ∃ name, env.uniformLoc name = -1 ∧
      (name = "iResolution" ∨ name = "iTime") ∧
      (main env width height fps duration).2 =
        Outcome.panic (PanicMsg.uniformNotFound name) ∧
      writtenFrames (main env width height fps duration).1 = [] ∧
      draws (main env width height fps duration).1 = [] := by
  obtain ⟨hctx, hread, hsetup⟩ := hco
  by_cases hres : env.uniformLoc "iResolution" = -1
  · refine ⟨"iResolution", hres, Or.inl rfl, ?_, ?_, ?_⟩ <;>
      simp [main, glStep, prepend, afterCompile, compile_shader,
        hctx, hread, hsetup, hlink, hfb, hres,
        writtenFrames, draws, isDraw]
  · have htime : env.uniformLoc "iTime" = -1 := hmiss.resolve_left hres
    refine ⟨"iTime", htime, Or.inr rfl, ?_, ?_, ?_⟩ <;>
      simp [main, glStep, prepend, afterCompile, compile_shader,
        hctx, hread, hsetup, hlink, hfb, hres, htime,
        writtenFrames, draws, isDraw]

/-- Witness for C7: a shader with `iResolution` but no `iTime`. -/
theorem C7_missing_uniform_witness :
    ∃ name, missingTimeEnv.uniformLoc name = -1 ∧
      (name = "iResolution" ∨ name = "iTime") ∧
      (main missingTimeEnv 1 1 2 1).2 =
        Outcome.panic (PanicMsg.uniformNotFound name) ∧
      writtenFrames (main missingTimeEnv 1 1 2 1).1 = [] ∧
      draws (main missingTimeEnv 1 1 2 1).1 = [] :=
  C7_missing_uniform missingTimeEnv 1 1 2 1
    ⟨rfl, rfl, fun _ => rfl⟩ rfl rfl (Or.inr (by decide))

/-- Counterexample to claim C8: the program is activated (`UseProgram`,
main.rs line 119) *before* the link status is queried (line 123) — in the
trace of a successful concrete run the first `useProgram` event strictly
precedes the `getLinkStatus` event, so activation does not wait for the
link status to be found successful. -/
theorem C8_counterexample :
    (main benignEnv 1 1 1 1).1.indexOf Event.useProgram <
      (main benignEnv 1 1 1 1).1.indexOf Event.getLinkStatus := by
  decide

/-- Claim C8 as amended: whenever setup calls succeed, the trace begins
with a fixed prefix in which `UseProgram` is issued immediately after
`LinkProgram` and *before* the link-status query (a second activation
follows a successful check); on link failure the run aborts with a link
error carrying the driver's linker log verbatim and hands no frame to the
sink. -/
theorem C8_link_flow (env : Env) (width height fps duration : ℕ)
    (hco : SetupCallsOk env) :
    ((main env width height fps duration).2 = Outcome.success →
      ∃ post, (main env width height fps duration).1 =
        [Event.loadGL, Event.createShader Stage.vertex,
         Event.shaderSource Stage.vertex, Event.compileShader Stage.vertex,
         Event.readShaderFile, Event.createShader Stage.fragment,
         Event.shaderSource Stage.fragment,
         Event.compileShader Stage.fragment, Event.createProgram,
         Event.attachShader Stage.vertex, Event.attachShader Stage.fragment,
         Event.linkProgram, Event.useProgram, Event.getLinkStatus] ++ post) ∧
    (env.linkStatus = false →
      (main env width height fps duration).2 =
        Outcome.panic (PanicMsg.linkFailed env.linkLog) ∧
      writtenFrames (main env width height fps duration).1 = []) := by
  obtain ⟨hctx, hread, hsetup⟩ := hco
  constructor
  · intro hs
    refine ⟨(setupEvs env width height).drop 14 ++
      ((List.range (fps * duration)).map
        (frameEvsOk env width height fps)).flatten, ?_⟩
    rw [main_success hs]
    rfl
  · intro hlf
    constructor <;>
      simp [main, glStep, prepend, afterCompile, compile_shader,
        hctx, hread, hsetup, hlf, writtenFrames]

/-- Witness for the amended C8 in the environment whose driver reports a
failed link. -/
theorem C8_link_flow_witness :
    (main linkFailEnv 1 1 1 1).2 =
      Outcome.panic (PanicMsg.linkFailed "link error log") ∧
    writtenFrames (main linkFailEnv 1 1 1 1).1 = [] :=
  (C8_link_flow linkFailEnv 1 1 1 1
    ⟨rfl, rfl, fun _ => rfl⟩).2 rfl

/-- Claim C9: the renderer is deterministic — the whole observable run
(event trace, emitted bytes and outcome) is a pure function of the
environment (shader/driver behaviour) and the four parameters; two runs
with the same environment and parameters are byte-identical.  There is no
other input: the embedding of the source reads no clock and no randomness
source. -/
theorem C9_deterministic (env₁ env₂ : Env) (w₁ h₁ f₁ d₁ w₂ h₂ f₂ d₂ : ℕ)
    (henv : env₁ = env₂) (hw : w₁ = w₂) (hh : h₁ = h₂) (hf : f₁ = f₂)
    (hd : d₁ = d₂) :
    main env₁ w₁ h₁ f₁ d₁ = main env₂ w₂ h₂ f₂ d₂ := by
  subst henv; subst hw; subst hh; subst hf; subst hd; rfl

/-- Witness for C9: two identical runs agree. -/
theorem C9_deterministic_witness :
    main benignEnv 1 1 2 1 = main benignEnv 1 1 2 1 :=
  C9_deterministic benignEnv benignEnv 1 1 2 1 1 1 2 1 rfl rfl rfl rfl rfl

/-- Claim C10: every `Uniform3f` push in every run — the one at setup
(main.rs line 161) and the one in every frame iteration (line 206) —
targets the `iResolution` location and carries exactly
`(width, height, 0.0)`: the third component is the constant `0.0`. -/
theorem C10_resolution_constant (env : Env) (width height fps duration : ℕ)
    (loc : Int) (x y z : ℚ)
    (hmem : Event.uniform3f loc x y z ∈
      (main env width height fps duration).1) :
    loc = env.uniformLoc "iResolution" ∧
    x = (width : ℚ) ∧ y = (height : ℚ) ∧ z = 0 :=
  (main_events _ hmem).1 loc x y z rfl

/-- Witness for C10 at the setup push of a concrete run. -/
theorem C10_resolution_constant_witness :
    (0 : Int) = benignEnv.uniformLoc "iResolution" ∧
    (1 : ℚ) = ((1 : ℕ) : ℚ) ∧ (1 : ℚ) = ((1 : ℕ) : ℚ) ∧ (0 : ℚ) = 0 :=
  C10_resolution_constant benignEnv 1 1 1 1 0 1 1 0 (by decide)

end Playder
